import Mathlib

/-!
Verification of the orchestration pipeline of `src/main.py` (a conversational
research assistant chaining web search, page extraction and summarization).

The Python values flowing through the pipeline (decoded JSON replies of the
summarization endpoint, opaque tool results) are embedded as `PyVal`; the
dynamic attribute/subscript errors Python can raise are embedded as `PyError`
with fallible operations returning `Except PyError PyVal`.  External
collaborators (the Tavily search/extract tools and the HTTP POST of
`query_huggingface`) are parameters of the embedded pipeline functions.
-/

namespace Tavily

/-- A Python value as it occurs in this program: strings, booleans, lists and
string-keyed dicts (the JSON-decodable shapes produced by `response.json()`
and the tool invocations). -/
inductive PyVal where
  | str (s : String)
  | bool (b : Bool)
  | list (xs : List PyVal)
  | dict (entries : List (String × PyVal))

/-- The single-quote character used by Python `repr` of strings. -/
def pyQuote : String := String.singleton (Char.ofNat 39)

mutual

/-- Python `repr` of a `PyVal` (string rendering used inside containers). -/
def pyRepr : PyVal → String
  | PyVal.str s => pyQuote ++ s ++ pyQuote
  | PyVal.bool b => if b then "True" else "False"
  | PyVal.list xs => "[" ++ String.intercalate ", " (pyReprList xs) ++ "]"
  | PyVal.dict es => "\x7b" ++ String.intercalate ", " (pyReprEntries es) ++ "\x7d"

/-- `repr` of each element of a Python list. -/
def pyReprList : List PyVal → List String
  | [] => []
  | v :: vs => pyRepr v :: pyReprList vs

/-- `repr` of each `key: value` entry of a Python dict. -/
def pyReprEntries : List (String × PyVal) → List String
  | [] => []
  | (k, v) :: es => (pyQuote ++ k ++ pyQuote ++ ": " ++ pyRepr v) :: pyReprEntries es

end

/-- Python `str()` of a `PyVal`: a string renders as itself, every other value
as its `repr`. -/
def pyStr : PyVal → String
  | PyVal.str s => s
  | v => pyRepr v

/-- Membership test `key in d` on a Python dict embedded as an entry list. -/
def hasKey (es : List (String × PyVal)) (k : String) : Bool :=
  es.any (fun kv => kv.1 == k)

/-- Key lookup in a Python dict (first matching entry; Python dicts have
unique keys). -/
def lookup : List (String × PyVal) → String → Option PyVal
  | [], _ => none
  | (k, v) :: rest, key => if k == key then some v else lookup rest key

/-- The dynamic faults the normalization code of `src/main.py` can raise. -/
inductive PyError where
  | attributeError
  | indexError
  | keyError
  | typeError
deriving DecidableEq

/-- Python `xs[0]`: `IndexError` on an empty list. -/
def pyIndex0 : List PyVal → Except PyError PyVal
  | [] => Except.error PyError.indexError
  | x :: _ => Except.ok x

/-- Python subscript `v[key]` with a string key: `KeyError` when a dict lacks
the key, `TypeError` when `v` is not subscriptable by a string. -/
def pySubscript (v : PyVal) (key : String) : Except PyError PyVal :=
  match v with
  | PyVal.dict es =>
    match lookup es key with
    | some w => Except.ok w
    | none => Except.error PyError.keyError
  | _ => Except.error PyError.typeError

/-- Python `v.get(key, default)`: only dicts have a `get` attribute, every
other value raises `AttributeError` (in particular a plain string does). -/
def pyDictGet (v : PyVal) (key : String) (default : PyVal) : Except PyError PyVal :=
  match v with
  | PyVal.dict es => Except.ok ((lookup es key).getD default)
  | _ => Except.error PyError.attributeError

/-- The fixed user-facing fallback of `query_huggingface` (src/main.py line 96). -/
def fallbackMessage : String :=
  "Sorry, there was an error processing the content. Please try again with a different input."

/-- Embeds `query_huggingface` (src/main.py lines 85-98) from the point where
the HTTP reply has been decoded (`result = response.json()`); the POST itself
is the external summarization endpoint, so the decoded reply is the argument.
If the reply is a dict containing an `error` key the fixed fallback STRING is
returned (the warnings printing is console I/O and not modelled); otherwise
the decoded reply is returned unchanged. -/
def query_huggingface (result : PyVal) : PyVal :=
  match result with
  | PyVal.dict es =>
    if hasKey es "error" then PyVal.str fallbackMessage else result
  | _ => result

/-- Embeds the reply-shape dispatch shared by `draft_answer` (line 83),
`search` (line 132) and `extract` (line 176):
`response[0]['summary_text'] if isinstance(response, list)
 else response.get('summary_text', str(response))`. -/
def normalize_response (response : PyVal) : Except PyError PyVal :=
  match response with
  | PyVal.list xs =>
    match pyIndex0 xs with
    | Except.ok x => pySubscript x "summary_text"
    | Except.error e => Except.error e
  | _ => pyDictGet response "summary_text" (PyVal.str (pyStr response))

/-- The summarizer tail of the pipeline on a decoded endpoint reply:
`query_huggingface`'s error handling followed by the callers' shape dispatch. -/
def normalizeReply (decoded : PyVal) : Except PyError PyVal :=
  normalize_response (query_huggingface decoded)

/-- Python slice `s[:n]` (by code points, as Python indexes strings). -/
def pySlice (s : String) (n : Nat) : String := String.mk (s.data.take n)

/-- Embeds the truncation of src/main.py lines 162-163
(`if len(combined_info) > 1000: combined_info = combined_info[:1000] + "..."`)
with the cap a parameter; `extract` instantiates it at 1000. -/
def truncateToLimit (s : String) (n : Nat) : String :=
  if s.length > n then pySlice s n ++ "..." else s

/-- A message of a `ConversationBufferMemory` chat history.  Modelled from the
langchain library: `save_context({"input": i}, {"output": o})` appends a
`HumanMessage(i)` then an `AIMessage(o)` to `chat_memory.messages`. -/
inductive Message where
  | human (content : String)
  | ai (content : String)
deriving DecidableEq

/-- Modelled from the langchain library: `memory.save_context({"input": inp},
{"output": out})` appends the human and the AI message to the history. -/
def save_context (mem : List Message) (inp out : String) : List Message :=
  mem ++ [Message.human inp, Message.ai out]

/-- Python slice `msgs[-2:]`: the last two elements (the whole list when it is
shorter). -/
def pyTail2 (msgs : List Message) : List Message :=
  msgs.drop (msgs.length - 2)

/-- Modelled from the langchain library: the `repr` of a message object, as
produced inside `str(messages[-2:])`. -/
def reprMessage : Message → String
  | Message.human s =>
    "HumanMessage(content=" ++ pyQuote ++ s ++ pyQuote ++
      ", additional_kwargs=\x7b\x7d, response_metadata=\x7b\x7d)"
  | Message.ai s =>
    "AIMessage(content=" ++ pyQuote ++ s ++ pyQuote ++
      ", additional_kwargs=\x7b\x7d, response_metadata=\x7b\x7d)"

/-- Python `str` of a list of messages (`str(memory.chat_memory.messages[-2:])`):
brackets around the comma-separated `repr`s of the elements. -/
def renderMessages (msgs : List Message) : String :=
  "[" ++ String.intercalate ", " (msgs.map reprMessage) ++ "]"

/-- Embeds the shared pattern of lines 118-119 and 159-160: when the memory's
message list is non-empty (Python truthiness of the list), append the
"Previous Context" section rendering the last two messages. -/
def addPreviousContext (base : String) (msgs : List Message) : String :=
  if msgs.isEmpty then base
  else base ++ "\n\nPrevious Context:\n" ++ renderMessages (pyTail2 msgs)

/-- The request body sent to the summarization endpoint
(src/main.py lines 73-80, 121-128, 165-172). -/
structure Payload where
  inputs : String
  max_length : Nat
  min_length : Nat
  do_sample : Bool

/-- The two module-level conversation memories of src/main.py lines 16-17. -/
structure AppState where
  search_memory : List Message
  extract_memory : List Message

/-- Embeds `search(user_input)` (src/main.py lines 100-132).  The Tavily
search tool and the summarization endpoint (the POST + `response.json()` of
`query_huggingface`) are the external parameters `searchTool` and `summ`.
Returns the updated state, the composed context (the payload's `inputs`) and
the normalized answer. -/
def search (searchTool : String → PyVal) (summ : Payload → PyVal)
    (st : AppState) (user_input : String) :
    AppState × String × Except PyError PyVal :=
  let search_results := searchTool user_input
  let mem2 := save_context st.search_memory user_input (pyStr search_results)
  let combined_info := addPreviousContext
    ("Query: " ++ user_input ++ "\n\nResearch Findings:\n" ++ pyStr search_results) mem2
  let payload : Payload :=
    { inputs := combined_info, max_length := 500, min_length := 100, do_sample := false }
  ({ st with search_memory := mem2 }, combined_info,
    normalize_response (query_huggingface (summ payload)))

/-- Result record of one `extract(user_input)` run: the user-facing status
message, the URL list handed to the extraction tool, the composed context
before and after the 1000-character cap, and the normalized answer. -/
structure ExtractOut where
  status : String
  urlsPassed : List String
  combinedBeforeCap : String
  composed : String
  answer : Except PyError PyVal

/-- Embeds `extract(user_input)` (src/main.py lines 134-176) with the URL
classification outcome (`is_url`) abstracted as the parameter `classifiedUrl`;
`extract` below instantiates it with the computed classification.  The flag
feeds only the printed status message (lines 146-149). -/
def extractC (classifiedUrl : Bool) (extractTool : List String → PyVal)
    (summ : Payload → PyVal) (st : AppState) (user_input : String) :
    AppState × ExtractOut :=
  let status := if classifiedUrl
    then "Extracting information from URL: " ++ user_input
    else "Extracting information from text input"
  let input_list := [user_input]
  let search_results := extractTool input_list
  let mem2 := save_context st.extract_memory user_input (pyStr search_results)
  let combined_info := addPreviousContext
    ("Query: " ++ user_input ++ "\n\nExtracted Information:\n" ++ pyStr search_results) mem2
  let capped := truncateToLimit combined_info 1000
  let payload : Payload :=
    { inputs := capped, max_length := 500, min_length := 100, do_sample := false }
  ({ st with extract_memory := mem2 },
    { status := status, urlsPassed := input_list, combinedBeforeCap := combined_info,
      composed := capped,
      answer := normalize_response (query_huggingface (summ payload)) })

/-- The URL classification of src/main.py line 145:
`user_input.startswith(('http://', 'https://'))`. -/
def is_url (s : String) : Bool :=
  s.startsWith "http://" || s.startsWith "https://"

/-- Embeds `extract(user_input)`: the run with the classification computed
from the input. -/
def extract (extractTool : List String → PyVal) (summ : Payload → PyVal)
    (st : AppState) (user_input : String) : AppState × ExtractOut :=
  extractC ( is_url user_input) extractTool summ st user_input

/-- One menu selection of the interactive loop (src/main.py lines 187-215):
a search-mode run or an extract-mode run on a free-text input. -/
inductive MenuOp where
  | searchOp (q : String)
  | extractOp (q : String)

/-- An interleaved sequence of search-mode and extract-mode runs over the two
module-level memories, as driven by the menu loop. -/
def runOps (searchTool : String → PyVal) (extractTool : List String → PyVal)
    (summ : Payload → PyVal) : List MenuOp → AppState → AppState
  | [], st => st
  | MenuOp.searchOp q :: rest, st =>
    runOps searchTool extractTool summ rest (search searchTool summ st q).1
  | MenuOp.extractOp q :: rest, st =>
    runOps searchTool extractTool summ rest (extract extractTool summ st q).1

/-- The inputs of the search-mode runs of an interleaved sequence, in order. -/
def searchInputs : List MenuOp → List String :=
  List.filterMap (fun op => match op with
    | MenuOp.searchOp q => some q
    | MenuOp.extractOp _ => none)

/-- The inputs of the extract-mode runs of an interleaved sequence, in order. -/
def extractInputs : List MenuOp → List String :=
  List.filterMap (fun op => match op with
    | MenuOp.searchOp _ => none
    | MenuOp.extractOp q => some q)

/-- The effect of one search-mode run on the search memory
(src/main.py line 112). -/
def searchMemUpdate (searchTool : String → PyVal) (mem : List Message) (q : String) :
    List Message :=
  save_context mem q (pyStr (searchTool q))

/-- The effect of one extract-mode run on the extract memory
(src/main.py line 154). -/
def extractMemUpdate (extractTool : List String → PyVal) (mem : List Message) (q : String) :
    List Message :=
  save_context mem q (pyStr (extractTool [q]))

/-- An exception raised by an external tool invocation (the error surface of
the extraction capability when a call fails with a raised fault). -/
inductive PyExn where
  | exn (msg : String)
deriving DecidableEq

/-- The result bundle of `ResearchAgent.gather_information`
(src/main.py lines 34-38). -/
structure ResultBundle where
  search_results : List PyVal
  extracted_info : List PyVal
  sources : List String

/-- The `for url in urls` loop of src/main.py lines 44-47: each iteration
invokes the extraction tool on the single-element list `[url]` and appends the
result and the URL; a raised exception propagates out of the loop, abandoning
the accumulated bundle. -/
def gatherLoop (extractTool : List String → Except PyExn PyVal) :
    List String → ResultBundle → Except PyExn ResultBundle
  | [], acc => Except.ok acc
  | url :: rest, acc =>
    match extractTool [url] with
    | Except.error e => Except.error e
    | Except.ok extracted =>
      gatherLoop extractTool rest
        { acc with extracted_info := acc.extracted_info ++ [extracted],
                   sources := acc.sources ++ [url] }

/-- Embeds `ResearchAgent.gather_information(query, urls)` (src/main.py lines
32-49): one search call, then the per-URL extraction loop (an absent `urls`
argument behaves as the empty list).  The extraction tool may raise
(`Except.error`), and the code has no handler around the loop. -/
def gather_information (searchTool : String → PyVal)
    (extractTool : List String → Except PyExn PyVal)
    (query : String) (urls : List String) : Except PyExn ResultBundle :=
  gatherLoop extractTool urls
    { search_results := [searchTool query], extracted_info := [], sources := [] }

/-- An extraction tool that raises on the URL "a" and succeeds elsewhere,
exercising the missing error handling of the gather loop. -/
def failingExtractTool : List String → Except PyExn PyVal
  | ["a"] => Except.error (PyExn.exn "boom")
  | _ => Except.ok (PyVal.str "ok")

/-- Whether `needle` occurs at the start of `hay` (on character lists). -/
def startsWithChars : List Char → List Char → Bool
  | [], _ => true
  | _ :: _, [] => false
  | a :: as, b :: bs => a == b && startsWithChars as bs

/-- Whether `needle` occurs contiguously anywhere in `hay`. -/
def hasSegment (needle : List Char) : List Char → Bool
  | [] => startsWithChars needle []
  | b :: bs => startsWithChars needle (b :: bs) || hasSegment needle bs

/-- A substring test (`needle in hay` on Python strings). -/
def strContainsSub (hay needle : String) : Bool :=
  hasSegment needle.data hay.data

/-- A 1200-character tool reply, long enough to trip the 1000-character cap of
the extract-mode composition. -/
def bigText : String := String.mk (List.replicate 1200 (Char.ofNat 97))

/-! ## Helper lemmas -/

theorem strLength_append (a b : String) : (a ++ b).length = a.length + b.length := by
  cases a; cases b; simp [String.length, String.append]

theorem strLength_mk (l : List Char) : (String.mk l).length = l.length := rfl

theorem pySlice_length (s : String) (n : Nat) : (pySlice s n).length = min n s.length := by
  cases s; simp [pySlice, String.length]

theorem truncate_len (s : String) (n : Nat) :
    (truncateToLimit s n).length = if n < s.length then n + 3 else s.length := by
  unfold truncateToLimit
  by_cases h : s.length > n
  · simp [h, strLength_append, pySlice_length, Nat.min_eq_left (Nat.le_of_lt h)]
    rfl
  · simp [h]

theorem truncate_le (s : String) (n : Nat) : (truncateToLimit s n).length ≤ n + 3 := by
  rw [truncate_len]
  split <;> omega

theorem pyTail2_append2 (mem : List Message) (a b : Message) :
    pyTail2 (mem ++ [a, b]) = [a, b] := by
  have h : (mem ++ [a, b]).length - 2 = mem.length := by simp
  unfold pyTail2
  rw [h, List.drop_left]

theorem addPreviousContext_save (base : String) (mem : List Message) (i o : String) :
    addPreviousContext base (save_context mem i o)
      = base ++ "\n\nPrevious Context:\n"
        ++ renderMessages [Message.human i, Message.ai o] := by
  have he : (save_context mem i o).isEmpty = false := by
    cases mem <;> simp [save_context]
  have ht : pyTail2 (save_context mem i o) = [Message.human i, Message.ai o] :=
    pyTail2_append2 mem _ _
  simp [addPreviousContext, he, ht]

theorem gatherLoop_ok (f : List String → PyVal) :
    ∀ (us : List String) (acc : ResultBundle),
      gatherLoop (fun us2 => Except.ok (f us2)) us acc
        = Except.ok { search_results := acc.search_results,
                      extracted_info := acc.extracted_info ++ us.map (fun u => f [u]),
                      sources := acc.sources ++ us } := by
  intro us
  induction us with
  | nil => intro acc; simp [gatherLoop]
  | cons u rest ih => intro acc; simp [gatherLoop, ih]

theorem runOps_search_memory (sT : String → PyVal) (eT : List String → PyVal)
    (summ : Payload → PyVal) :
    ∀ (ops : List MenuOp) (st : AppState),
      (runOps sT eT summ ops st).search_memory
        = (searchInputs ops).foldl (searchMemUpdate sT) st.search_memory := by
  intro ops
  induction ops with
  | nil => intro st; rfl
  | cons op rest ih =>
    intro st
    cases op with
    | searchOp q => simp [runOps, searchInputs, ih, search, searchMemUpdate]
    | extractOp q => simp [runOps, searchInputs, ih, extract, extractC]

theorem runOps_extract_memory (sT : String → PyVal) (eT : List String → PyVal)
    (summ : Payload → PyVal) :
    ∀ (ops : List MenuOp) (st : AppState),
      (runOps sT eT summ ops st).extract_memory
        = (extractInputs ops).foldl (extractMemUpdate eT) st.extract_memory := by
  intro ops
  induction ops with
  | nil => intro st; rfl
  | cons op rest ih =>
    intro st
    cases op with
    | searchOp q => simp [runOps, extractInputs, ih, search]
    | extractOp q => simp [runOps, extractInputs, ih, extract, extractC, extractMemUpdate]

/-! ## Claim theorems -/

/-- C1: summarizer normalization on the four canonical reply shapes.  The
first, second and fourth shapes behave as claimed; on the error reply
`query_huggingface` returns the fallback as a plain string and the caller's
`response.get(...)` on that string raises `AttributeError` instead of
returning the fallback — the failing input of the code bug. -/
theorem c1_summarizer_shapes :
    normalizeReply (PyVal.list [PyVal.dict [("summary_text", PyVal.str "A")]])
      = Except.ok (PyVal.str "A") ∧
    normalizeReply (PyVal.dict [("summary_text", PyVal.str "B")])
      = Except.ok (PyVal.str "B") ∧
    normalizeReply (PyVal.dict [("error", PyVal.str "rate limited"),
        ("warnings", PyVal.list [PyVal.str "slow down"])])
      = Except.error PyError.attributeError ∧
    normalizeReply (PyVal.dict [("unexpected", PyVal.bool true)])
      = Except.ok (PyVal.str (pyStr (PyVal.dict [("unexpected", PyVal.bool true)]))) ∧
    pyStr (PyVal.dict [("unexpected", PyVal.bool true)])
      = "\x7b" ++ pyQuote ++ "unexpected" ++ pyQuote ++ ": True\x7d" :=
  ⟨rfl, rfl, rfl, rfl, rfl⟩

/-- C2 counterexample: a mapping reply holding both `summary_text` and `error`
does not yield the `summary_text` value: the error check fires first inside
`query_huggingface` and the pipeline then raises `AttributeError`. -/
theorem c2_counterexample :
    normalizeReply (PyVal.dict [("summary_text", PyVal.str "B"), ("error", PyVal.str "x")])
      = Except.error PyError.attributeError ∧
    normalizeReply (PyVal.dict [("summary_text", PyVal.str "B"), ("error", PyVal.str "x")])
      ≠ Except.ok (PyVal.str "B") :=
  ⟨rfl, fun h => nomatch h⟩

/-- C2 amended: the `error`-mapping check is performed first, inside
`query_huggingface`; for every mapping reply containing an `error` key — even
one also containing `summary_text` — the fixed fallback string is produced
there, and the caller's shape dispatch then raises `AttributeError` on it. -/
theorem c2_error_precedence (es : List (String × PyVal)) (h : hasKey es "error" = true) :
    query_huggingface (PyVal.dict es) = PyVal.str fallbackMessage ∧
    normalizeReply (PyVal.dict es) = Except.error PyError.attributeError := by
  refine ⟨?_, ?_⟩
  · simp [query_huggingface, h]
  · simp [normalizeReply, query_huggingface, h, normalize_response, pyDictGet]

/-- C2 witness: the amended theorem applied to the dual-key mapping. -/
theorem c2_witness :
    hasKey [("summary_text", PyVal.str "B"), ("error", PyVal.str "x")] "error" = true ∧
    (query_huggingface (PyVal.dict [("summary_text", PyVal.str "B"), ("error", PyVal.str "x")])
       = PyVal.str fallbackMessage ∧
     normalizeReply (PyVal.dict [("summary_text", PyVal.str "B"), ("error", PyVal.str "x")])
       = Except.error PyError.attributeError) :=
  ⟨rfl, c2_error_precedence _ rfl⟩

/-- C3: when the composed text is longer than `max_length`, the truncation of
the compose step outputs exactly the first `max_length` characters followed by
the three-character marker "...", for a total length `max_length + 3`;
otherwise the text is unchanged. -/
theorem c3_truncation (s : String) (n : Nat) :
    (truncateToLimit s n).length = (if s.length > n then n + 3 else s.length) ∧
    truncateToLimit s n = (if s.length > n then pySlice s n ++ "..." else s) := by
  refine ⟨?_, rfl⟩
  rw [truncate_len]

/-- C4 counterexample: with an extraction capability that raises on the first
URL, `gather_information` on the URL list `["a", "b"]` propagates the raised
fault — no bundle is returned at all, so nothing is collected for "b". -/
theorem c4_counterexample :
    gather_information (fun _ => PyVal.str "s") failingExtractTool "q" ["a", "b"]
      = Except.error (PyExn.exn "boom") := rfl

/-- C4 amended: the per-URL loop has no error handler; independence holds only
when the extraction capability returns (rather than raises) its results, in
which case every URL contributes its payload and its source, in order. -/
theorem c4_no_raise_collection (searchTool : String → PyVal)
    (f : List String → PyVal) (query : String) (urls : List String) :
    gather_information searchTool (fun us => Except.ok (f us)) query urls
      = Except.ok { search_results := [searchTool query],
                    extracted_info := urls.map (fun u => f [u]),
                    sources := urls } := by
  unfold gather_information
  rw [gatherLoop_ok]
  simp

/-- C5 counterexample: the normalization is not total — an empty sequence
reply makes `response[0]` raise `IndexError` rather than degrade to a
textual rendering. -/
theorem c5_counterexample :
    normalizeReply (PyVal.list []) = Except.error PyError.indexError := rfl

/-- C5 amended: normalization returns without raising only for mapping
replies without an `error` key (`summary_text` if present, else the reply's
textual rendering) and for sequences whose first element is a mapping; an
empty sequence raises `IndexError` and a sequence whose first element lacks
`summary_text` raises `KeyError`. -/
theorem c5_totality_boundary :
    (∀ es : List (String × PyVal), hasKey es "error" = false →
      normalizeReply (PyVal.dict es)
        = Except.ok ((lookup es "summary_text").getD
            (PyVal.str (pyStr (PyVal.dict es))))) ∧
    (∀ (es : List (String × PyVal)) (rest : List PyVal),
      normalizeReply (PyVal.list (PyVal.dict es :: rest))
        = pySubscript (PyVal.dict es) "summary_text") ∧
    normalizeReply (PyVal.list [PyVal.dict []]) = Except.error PyError.keyError := by
  refine ⟨?_, ?_, rfl⟩
  · intro es h
    simp [normalizeReply, query_huggingface, h, normalize_response, pyDictGet]
  · intro es rest
    rfl

/-- C5 witness: the amended theorem applied to a mapping without `error` and
without `summary_text`, which degrades to the textual rendering. -/
theorem c5_witness :
    hasKey [("other", PyVal.bool true)] "error" = false ∧
    normalizeReply (PyVal.dict [("other", PyVal.bool true)])
      = Except.ok ((lookup [("other", PyVal.bool true)] "summary_text").getD
          (PyVal.str (pyStr (PyVal.dict [("other", PyVal.bool true)])))) :=
  ⟨rfl, c5_totality_boundary.1 _ rfl⟩

/-- C6 counterexample: with an extraction tool returning a 1200-character
text, the composed context actually placed in the payload of the extract-mode
run is longer than 1000 characters (it is cut to 1000 and then the marker is
appended, giving 1003). -/
theorem c6_counterexample :
    1000 < (extract (fun _ => PyVal.str bigText) (fun _ => PyVal.dict [])
        ⟨[], []⟩ "x").2.composed.length := by
  have hb : bigText.length = 1200 := by
    show (String.mk (List.replicate 1200 (Char.ofNat 97))).length = 1200
    rw [strLength_mk, List.length_replicate]
  have h1000 : 1000 <
      (addPreviousContext ("Query: " ++ "x" ++ "\n\nExtracted Information:\n" ++ bigText)
        (save_context [] "x" bigText)).length := by
    rw [addPreviousContext_save]
    simp only [strLength_append, hb]
    omega
  simp only [extract, extractC, pyStr]
  rw [truncate_len, if_pos h1000]
  omega

/-- C6 amended: the composed context sent to the summarization endpoint by an
extract-mode run has length at most 1003 (the 1000-character cut plus the
three-character truncation marker), not 1000. -/
theorem c6_extract_cap (extractTool : List String → PyVal) (summ : Payload → PyVal)
    (st : AppState) (user_input : String) :
    (extract extractTool summ st user_input).2.composed.length ≤ 1003 := by
  unfold extract extractC
  exact truncate_le _ 1000

/-- C7: mode isolation.  A search-mode run leaves the extract memory
untouched and an extract-mode run leaves the search memory untouched; each
run's own memory update, composed context and answer are independent of the
other mode's memory; and over every interleaved sequence of runs, each memory
equals the fold of its own mode's updates over its own mode's inputs only. -/
theorem c7_mode_isolation (sT : String → PyVal) (eT : List String → PyVal)
    (summ : Payload → PyVal) :
    (∀ (st : AppState) (q : String),
      (search sT summ st q).1.extract_memory = st.extract_memory) ∧
    (∀ (st : AppState) (q : String),
      (extract eT summ st q).1.search_memory = st.search_memory) ∧
    (∀ (sm em em2 : List Message) (q : String),
      (search sT summ ⟨sm, em⟩ q).1.search_memory
        = (search sT summ ⟨sm, em2⟩ q).1.search_memory ∧
      (search sT summ ⟨sm, em⟩ q).2 = (search sT summ ⟨sm, em2⟩ q).2) ∧
    (∀ (sm sm2 em : List Message) (q : String),
      (extract eT summ ⟨sm, em⟩ q).1.extract_memory
        = (extract eT summ ⟨sm2, em⟩ q).1.extract_memory ∧
      (extract eT summ ⟨sm, em⟩ q).2 = (extract eT summ ⟨sm2, em⟩ q).2) ∧
    (∀ (ops : List MenuOp) (st : AppState),
      (runOps sT eT summ ops st).search_memory
        = (searchInputs ops).foldl (searchMemUpdate sT) st.search_memory) ∧
    (∀ (ops : List MenuOp) (st : AppState),
      (runOps sT eT summ ops st).extract_memory
        = (extractInputs ops).foldl (extractMemUpdate eT) st.extract_memory) :=
  ⟨fun _ _ => rfl, fun _ _ => rfl,
   fun _ _ _ _ => ⟨rfl, rfl⟩, fun _ _ _ _ => ⟨rfl, rfl⟩,
   runOps_search_memory sT eT summ, runOps_extract_memory sT eT summ⟩

/-- C8: the URL classification of the extract-mode run feeds only the printed
status message: for every classification outcome the extraction capability is
invoked with the single-element list `[input]`, and the resulting state,
composed contexts and answer coincide for both outcomes; the run itself is
the classified instance. -/
theorem c8_classification_inert (b b2 : Bool) (eT : List String → PyVal)
    (summ : Payload → PyVal) (st : AppState) (q : String) :
    (extractC b eT summ st q).2.urlsPassed = [q] ∧
    extract eT summ st q = extractC ( is_url q) eT summ st q ∧
    (extractC b eT summ st q).1 = (extractC b2 eT summ st q).1 ∧
    (extractC b eT summ st q).2.urlsPassed = (extractC b2 eT summ st q).2.urlsPassed ∧
    (extractC b eT summ st q).2.combinedBeforeCap
      = (extractC b2 eT summ st q).2.combinedBeforeCap ∧
    (extractC b eT summ st q).2.composed = (extractC b2 eT summ st q).2.composed ∧
    (extractC b eT summ st q).2.answer = (extractC b2 eT summ st q).2.answer :=
  ⟨rfl, rfl, rfl, rfl, rfl, rfl, rfl⟩

set_option maxRecDepth 8000 in
/-- C9 counterexample: with a prior turn ("#1#", "#2#") already in the search
memory, the composed prompt of the next search run has a "Previous Context"
section but does not contain the prior turn's text — the section renders only
the last two messages (the single just-saved turn), not the last two turns. -/
theorem c9_counterexample :
    strContainsSub (search (fun _ => PyVal.str "y") (fun _ => PyVal.dict [])
        ⟨[Message.human "#1#", Message.ai "#2#"], []⟩ "x").2.1 "Previous Context" = true ∧
    strContainsSub (search (fun _ => PyVal.str "y") (fun _ => PyVal.dict [])
        ⟨[Message.human "#1#", Message.ai "#2#"], []⟩ "x").2.1 "#1#" = false := by
  refine ⟨?_, ?_⟩ <;> rfl

/-- C9 amended: the composed prompt contains the "Previous Context" section
exactly when the mode's memory (after the save) is non-empty, and the section
renders the last two messages of that memory — the input/output pair of the
most recent turn, not the last two turns. -/
theorem c9_previous_context_section (base : String) (m : Message)
    (ms mem : List Message) (a b : Message) :
    addPreviousContext base [] = base ∧
    addPreviousContext base (m :: ms)
      = base ++ "\n\nPrevious Context:\n" ++ renderMessages (pyTail2 (m :: ms)) ∧
    pyTail2 (mem ++ [a, b]) = [a, b] :=
  ⟨rfl, rfl, pyTail2_append2 mem a b⟩

/-- C10: both runs save the current turn before the memory-emptiness check,
so the memory at the check is the prior memory plus the just-saved turn, the
"Previous Context" section is present unconditionally, and it renders exactly
the two messages of the just-saved turn (the current input and the stringified
raw result), never earlier turns. -/
theorem c10_section_unconditional (sT : String → PyVal) (eT : List String → PyVal)
    (summ : Payload → PyVal) (st : AppState) (q : String) :
    (search sT summ st q).1.search_memory
      = st.search_memory ++ [Message.human q, Message.ai (pyStr (sT q))] ∧
    (search sT summ st q).2.1
      = ("Query: " ++ q ++ "\n\nResearch Findings:\n" ++ pyStr (sT q))
        ++ "\n\nPrevious Context:\n"
        ++ renderMessages [Message.human q, Message.ai (pyStr (sT q))] ∧
    (extract eT summ st q).1.extract_memory
      = st.extract_memory ++ [Message.human q, Message.ai (pyStr (eT [q]))] ∧
    (extract eT summ st q).2.combinedBeforeCap
      = ("Query: " ++ q ++ "\n\nExtracted Information:\n" ++ pyStr (eT [q]))
        ++ "\n\nPrevious Context:\n"
        ++ renderMessages [Message.human q, Message.ai (pyStr (eT [q]))] := by
  refine ⟨rfl, ?_, rfl, ?_⟩
  · show addPreviousContext ("Query: " ++ q ++ "\n\nResearch Findings:\n" ++ pyStr (sT q))
      (save_context st.search_memory q (pyStr (sT q))) = _
    rw [addPreviousContext_save]
  · show addPreviousContext ("Query: " ++ q ++ "\n\nExtracted Information:\n" ++ pyStr (eT [q]))
      (save_context st.extract_memory q (pyStr (eT [q]))) = _
    rw [addPreviousContext_save]

end Tavily
